import Mathlib

/-!
Verification development for the Legal Document Analyzer orchestration layer.

The repository contains two variants of the provider-orchestration module:

* api-integrations.js, a class LegalDocumentAPIs with per-task conditional
  fallback chains over OpenAI, Gemini, Hugging Face and the MyMemory
  translation endpoint.  It is embedded below in namespace Basic.
* a second variant (the enhanced multi-AI module) with a static preference
  table, a cached availableServices snapshot and an NLP enrichment step.
  It is embedded below in namespace Enhanced.

The network is modelled by an explicit oracle (structure Net, resp. ENet)
giving the outcome of each remote endpoint: none models a transport
failure or non-2xx status, which the source code surfaces as a thrown
exception from makeAPICall or fetch; some p models a 2xx response whose
JSON payload is p.  Payload fields that the source dereferences are
modelled with Option so that a missing field is representable: a
dereference of a missing intermediate object throws a TypeError in
JavaScript (modelled as Except.error), while a missing leaf field merely
evaluates to undefined (modelled as a returned none).

Each task entry point is embedded as a total function returning a
TaskResult, the caller-visible value, paired with the list of provider
adapters actually invoked during the call (the invocation trace), which
instruments the control flow of the source without changing it.  The
TaskResult fields provider and degraded record which branch of the source
produced the value: degraded is true exactly on the mock-fallback branch.
-/

namespace Basic

/-- Configuration state of the LegalDocumentAPIs class: the three stored
credential fields.  A JavaScript truthiness test on such a key is exactly
a non-emptiness test on the string. -/
structure Config where
  openaiKey : String
  geminiKey : String
  huggingfaceKey : String
deriving Repr, DecidableEq

/-- An OpenAI chat message object; the content field may be absent. -/
structure ChatMessage where
  content : Option String
deriving Repr, DecidableEq

/-- One element of the choices array; the message field may be absent. -/
structure ChatChoice where
  message : Option ChatMessage
deriving Repr, DecidableEq

/-- An OpenAI chat-completions response payload; the choices array may be
absent. -/
structure OpenAIPayload where
  choices : Option (List ChatChoice)
deriving Repr, DecidableEq

/-- One part of a Gemini content object; the text field may be absent. -/
structure GeminiPart where
  text : Option String
deriving Repr, DecidableEq

/-- A Gemini content object; the parts array may be absent. -/
structure GeminiContent where
  parts : Option (List GeminiPart)
deriving Repr, DecidableEq

/-- One element of the candidates array; the content field may be absent. -/
structure GeminiCandidate where
  content : Option GeminiContent
deriving Repr, DecidableEq

/-- A Gemini generateContent response payload; the candidates array may be
absent. -/
structure GeminiPayload where
  candidates : Option (List GeminiCandidate)
deriving Repr, DecidableEq

/-- One named-entity record of the Hugging Face NER response. -/
structure HFEntity where
  word : String
  entity_group : String
deriving Repr, DecidableEq

/-- A Hugging Face NER response body: either a JSON array of entities, or
some non-array value (on which the forEach call of the source throws). -/
inductive HFResp where
  | arr (entities : List HFEntity)
  | nonArray
deriving Repr, DecidableEq

/-- The responseData object of a MyMemory response; the translatedText
leaf may be absent. -/
structure MyMemoryData where
  translatedText : Option String
deriving Repr, DecidableEq

/-- A MyMemory translation response payload; the responseData object may
be absent. -/
structure MyMemoryPayload where
  responseData : Option MyMemoryData
deriving Repr, DecidableEq

/-- Network oracle: the outcome of each remote endpoint during one task
call.  none models a transport failure or non-2xx status (makeAPICall
throws); some p models a 2xx response with JSON body p.  Each entry point
of this module calls each endpoint at most once, so one outcome per
endpoint determines the execution. -/
structure Net where
  openai : Option OpenAIPayload
  gemini : Option GeminiPayload
  huggingface : Option HFResp
  mymemory : Option MyMemoryPayload
deriving Repr, DecidableEq

/-- The provider adapters this module can invoke. -/
inductive Provider where
  | openai
  | gemini
  | huggingface
  | mymemory
deriving Repr, DecidableEq

/-- The caller-visible result of a text task.  payload holds the returned
value, none standing for the JavaScript undefined value; provider records
which adapter produced it (none for the mock fallback); degraded is true
exactly when the mock-fallback branch of the source produced the value. -/
structure TaskResult where
  payload : Option String
  provider : Option Provider
  degraded : Bool
deriving Repr, DecidableEq

/-- The normalized entity object built by processEntityResponse and
getMockEntities: exactly these five fields, in source order. -/
structure Entities where
  persons : List String
  organizations : List String
  locations : List String
  dates : List String
  legal_refs : List String
deriving Repr, DecidableEq

/-- The caller-visible result of the entity-extraction task. -/
structure EntityResult where
  payload : Entities
  provider : Option Provider
  degraded : Bool
deriving Repr, DecidableEq

/-- summarizeWithOpenAI: makeAPICall on the chat-completions endpoint,
then the dereference response.choices[0].message.content.  A transport
failure, or a missing choices array, an empty choices array, or a missing
message object, all throw (Except.error); a missing content leaf merely
returns undefined (ok none). -/
def summarizeWithOpenAI (net : Net) (_prompt : String) : Except Unit (Option String) :=
  match net.openai with
  | none => .error ()
  | some payload =>
    match payload.choices with
    | none => .error ()
    | some [] => .error ()
    | some (c :: _) =>
      match c.message with
      | none => .error ()
      | some m => .ok m.content

/-- summarizeWithGemini: makeAPICall on the generateContent endpoint, then
the dereference response.candidates[0].content.parts[0].text.  Any missing
intermediate object throws; a missing text leaf returns undefined. -/
def summarizeWithGemini (net : Net) (_prompt : String) : Except Unit (Option String) :=
  match net.gemini with
  | none => .error ()
  | some payload =>
    match payload.candidates with
    | none => .error ()
    | some [] => .error ()
    | some (c :: _) =>
      match c.content with
      | none => .error ()
      | some content =>
        match content.parts with
        | none => .error ()
        | some [] => .error ()
        | some (p :: _) => .ok p.text

/-- The prompts table of summarizeDocument, keyed by summaryType; none
models an absent key (the lookup evaluates to undefined). -/
def summaryPrompts (text summaryType : String) : Option String :=
  if summaryType = "comprehensive" then
    some ("Provide a comprehensive summary of this Indian legal document. Focus on key legal points, parties involved, main arguments, and legal implications:\n\n" ++ text)
  else if summaryType = "executive" then
    some ("Provide an executive summary of this legal document suitable for senior management. Focus on business impact and key decisions:\n\n" ++ text)
  else if summaryType = "key-points" then
    some ("Extract the key points from this legal document in bullet format:\n\n" ++ text)
  else if summaryType = "timeline" then
    some ("Create a timeline of important dates and events from this legal document:\n\n" ++ text)
  else none

/-- The lengthInstructions table of summarizeDocument, keyed by length. -/
def lengthInstructions (length : String) : Option String :=
  if length = "short" then some "Keep the summary concise (2-3 paragraphs)"
  else if length = "medium" then some "Provide a moderate length summary (4-6 paragraphs)"
  else if length = "long" then some "Provide a detailed summary (8-10 paragraphs)"
  else none

/-- JavaScript template-literal interpolation of a possibly-undefined
value: undefined prints as the string undefined. -/
def strOrUndef (o : Option String) : String :=
  o.getD "undefined"

/-- The prompt built by summarizeDocument from the two tables. -/
def buildSummaryPrompt (text summaryType length : String) : String :=
  strOrUndef (summaryPrompts text summaryType) ++ " " ++ strOrUndef (lengthInstructions length)

/-- The mockSummaries table of getMockSummary. -/
def mockSummaries (t : String) : Option String :=
  if t = "comprehensive" then
    some "This legal document appears to be a comprehensive contract or agreement. Based on the structure and content, it contains standard legal provisions including terms, conditions, and obligations of the parties involved. The document follows Indian legal formatting and includes relevant statutory references."
  else if t = "executive" then
    some "Executive Summary: This document represents a significant legal agreement requiring immediate attention. Key business impacts include contractual obligations, financial implications, and regulatory compliance requirements."
  else if t = "key-points" then
    some "• Document Type: Legal Contract\n• Parties: Multiple entities involved\n• Key Terms: Standard contractual provisions\n• Obligations: Mutual responsibilities outlined\n• Compliance: Follows Indian legal standards"
  else if t = "timeline" then
    some "Timeline of Events:\n• Document Creation: [Date to be extracted]\n• Effective Date: [Date to be extracted]\n• Key Milestones: [To be identified]\n• Expiration: [Date to be extracted]"
  else none

/-- getMockSummary: mockSummaries[type] || mockSummaries.comprehensive. -/
def getMockSummary (t : String) : String :=
  (mockSummaries t).getD (strOrUndef (mockSummaries "comprehensive"))

/-- getMockLegalAnswer, the mock fallback of askLegalQuestion. -/
def getMockLegalAnswer (question : String) : String :=
  "Thank you for your legal question: \"" ++ question ++ "\". \n\nThis is a mock response. For accurate legal advice, please consult with a qualified legal professional familiar with Indian law. \n\nBased on general legal principles in India:\n- Legal matters require careful analysis of specific circumstances\n- Indian legal system is based on common law with statutory modifications\n- Always verify current legal status and recent amendments\n- Consider consulting relevant legal precedents and case law\n\nPlease note: This is not legal advice and should not be relied upon for legal decisions."

/-- getMockTranslation, the mock fallback of translateText: it embeds the
language pair, the original text, and an explicit mock-translation
notice. -/
def getMockTranslation (text sourceLang targetLang : String) : String :=
  "[Translation from " ++ sourceLang ++ " to " ++ targetLang ++ "]: " ++ text ++ " [This is a mock translation. Please use a proper translation service for accurate results.]"

/-- getMockEntities, the mock fallback of extractEntities. -/
def getMockEntities : Entities :=
  { persons := ["John Doe", "Jane Smith"]
    organizations := ["ABC Corporation", "XYZ Ltd."]
    locations := ["Mumbai", "New Delhi"]
    dates := ["2023-01-15", "2023-12-31"]
    legal_refs := ["Indian Contract Act 1872", "Companies Act 2013"] }

/-- getMockSearchResults, the mock fallback of performSemanticSearch. -/
def getMockSearchResults (query : String) : String :=
  "Search results for \"" ++ query ++ "\":\n\n1. **Relevant Section Found** (Confidence: 8/10)\n   - Located in paragraph 3, section 2.1\n   - Context: Contains related legal provisions\n\n2. **Key Match** (Confidence: 6/10)\n   - Found in clause 4(a)\n   - Related to contractual obligations\n\n3. **Legal Concept** (Confidence: 7/10)\n   - Connects to Indian Contract Act provisions\n   - Relevant case law references available\n\nThis is a mock search result. Actual implementation would provide more detailed analysis."

/-- The prompt built by askLegalQuestion; the context block is included
only when documentContext is truthy (non-empty). -/
def buildLegalQuestionPrompt (question documentContext : String) : String :=
  "You are an expert in Indian law. Answer this legal question professionally and accurately:\n\nQuestion: " ++ question ++ "\n\n" ++
  (if documentContext ≠ "" then "Context from document: " ++ documentContext else "") ++
  "\n\nPlease provide a comprehensive answer covering:\n1. Relevant Indian laws and acts\n2. Legal precedents if applicable\n3. Practical implications\n4. Recommended next steps"

/-- The prompt built by performSemanticSearch. -/
def buildSearchPrompt (query documentText : String) : String :=
  "Perform semantic search on this legal document for the query: \"" ++ query ++ "\"\n\nDocument: " ++ documentText ++
  "\n\nPlease find and return:\n1. Most relevant sections\n2. Key matches and their context\n3. Related legal concepts\n4. Confidence score (1-10)"

/-- summarizeDocument: build the prompt from the two tables, then try
OpenAI when its key is truthy (each attempt in its own try/catch), then
Gemini when its key is truthy, then fall back to getMockSummary.  The
second component is the list of adapters invoked. -/
def summarizeDocument (cfg : Config) (net : Net) (text summaryType length : String) :
    TaskResult × List Provider :=
  let prompt := buildSummaryPrompt text summaryType length
  let mock : TaskResult :=
    { payload := some (getMockSummary summaryType), provider := none, degraded := true }
  if cfg.openaiKey ≠ "" then
    match summarizeWithOpenAI net prompt with
    | .ok v => ({ payload := v, provider := some .openai, degraded := false }, [.openai])
    | .error _ =>
      if cfg.geminiKey ≠ "" then
        match summarizeWithGemini net prompt with
        | .ok v => ({ payload := v, provider := some .gemini, degraded := false }, [.openai, .gemini])
        | .error _ => (mock, [.openai, .gemini])
      else (mock, [.openai])
  else if cfg.geminiKey ≠ "" then
    match summarizeWithGemini net prompt with
    | .ok v => ({ payload := v, provider := some .gemini, degraded := false }, [.gemini])
    | .error _ => (mock, [.gemini])
  else (mock, [])

/-- askLegalQuestion: same OpenAI-then-Gemini chain as summarizeDocument
(each attempt in its own try/catch), falling back to getMockLegalAnswer. -/
def askLegalQuestion (cfg : Config) (net : Net) (question documentContext : String) :
    TaskResult × List Provider :=
  let prompt := buildLegalQuestionPrompt question documentContext
  let mock : TaskResult :=
    { payload := some (getMockLegalAnswer question), provider := none, degraded := true }
  if cfg.openaiKey ≠ "" then
    match summarizeWithOpenAI net prompt with
    | .ok v => ({ payload := v, provider := some .openai, degraded := false }, [.openai])
    | .error _ =>
      if cfg.geminiKey ≠ "" then
        match summarizeWithGemini net prompt with
        | .ok v => ({ payload := v, provider := some .gemini, degraded := false }, [.openai, .gemini])
        | .error _ => (mock, [.openai, .gemini])
      else (mock, [.openai])
  else if cfg.geminiKey ≠ "" then
    match summarizeWithGemini net prompt with
    | .ok v => ({ payload := v, provider := some .gemini, degraded := false }, [.gemini])
    | .error _ => (mock, [.gemini])
  else (mock, [])

/-- performSemanticSearch: unlike summarizeDocument, the source wraps the
whole provider chain in a single try/catch, so an exception thrown by the
OpenAI attempt jumps straight to the catch and the mock fallback without
attempting Gemini. -/
def performSemanticSearch (cfg : Config) (net : Net) (query documentText : String) :
    TaskResult × List Provider :=
  let prompt := buildSearchPrompt query documentText
  let mock : TaskResult :=
    { payload := some (getMockSearchResults query), provider := none, degraded := true }
  if cfg.openaiKey ≠ "" then
    match summarizeWithOpenAI net prompt with
    | .ok v => ({ payload := v, provider := some .openai, degraded := false }, [.openai])
    | .error _ => (mock, [.openai])
  else if cfg.geminiKey ≠ "" then
    match summarizeWithGemini net prompt with
    | .ok v => ({ payload := v, provider := some .gemini, degraded := false }, [.gemini])
    | .error _ => (mock, [.gemini])
  else (mock, [])

/-- The switch statement applied by processEntityResponse to one entity:
PER, ORG, LOC and MISC push the word onto the matching list; every other
label (including DATE, which has no case) is dropped. -/
def classifyEntity (acc : Entities) (e : HFEntity) : Entities :=
  if e.entity_group = "PER" then { acc with persons := acc.persons ++ [e.word] }
  else if e.entity_group = "ORG" then { acc with organizations := acc.organizations ++ [e.word] }
  else if e.entity_group = "LOC" then { acc with locations := acc.locations ++ [e.word] }
  else if e.entity_group = "MISC" then { acc with legal_refs := acc.legal_refs ++ [e.word] }
  else acc

/-- processEntityResponse: start from the five empty lists and fold the
switch over the response array. -/
def processEntityResponse (response : List HFEntity) : Entities :=
  List.foldl classifyEntity
    { persons := [], organizations := [], locations := [], dates := [], legal_refs := [] }
    response

/-- extractEntities: call the Hugging Face NER endpoint when its key is
truthy and process the response; any throw inside the try block (transport
failure, or the forEach TypeError on a non-array body) falls through to
getMockEntities. -/
def extractEntities (cfg : Config) (net : Net) (_text : String) :
    EntityResult × List Provider :=
  let mock : EntityResult := { payload := getMockEntities, provider := none, degraded := true }
  if cfg.huggingfaceKey ≠ "" then
    match net.huggingface with
    | some (.arr es) =>
      ({ payload := processEntityResponse es, provider := some .huggingface, degraded := false },
       [.huggingface])
    | some .nonArray => (mock, [.huggingface])
    | none => (mock, [.huggingface])
  else (mock, [])

/-- translateText: a single unconditional MyMemory call inside one
try/catch; no configuration field is consulted (the configuration
parameter is unused, mirroring the source).  A transport failure, or the
TypeError from response.responseData.translatedText when responseData is
absent, lands in the catch and returns getMockTranslation; a present
responseData returns its translatedText leaf (possibly undefined). -/
def translateText (_cfg : Config) (net : Net) (text sourceLang targetLang : String) :
    TaskResult × List Provider :=
  let mock : TaskResult :=
    { payload := some (getMockTranslation text sourceLang targetLang), provider := none, degraded := true }
  match net.mymemory with
  | none => (mock, [.mymemory])
  | some payload =>
    match payload.responseData with
    | none => (mock, [.mymemory])
    | some d => ({ payload := d.translatedText, provider := some .mymemory, degraded := false }, [.mymemory])

/-- True when the single MyMemory call of translateText fails in the sense
of the adapter-failure taxonomy: transport failure, or a payload whose
responseData object is missing (the normalization TypeError). -/
def mymemoryCallFailed (net : Net) : Bool :=
  match net.mymemory with
  | none => true
  | some payload => payload.responseData.isNone

/-- getAvailableAPIs: reads the current configuration on every call and
pushes a display name for each truthy (non-empty) credential. -/
def getAvailableAPIs (cfg : Config) : List String :=
  (if cfg.openaiKey ≠ "" then ["OpenAI"] else []) ++
  (if cfg.geminiKey ≠ "" then ["Gemini"] else []) ++
  (if cfg.huggingfaceKey ≠ "" then ["Hugging Face"] else [])

end Basic

namespace Enhanced

/-- The API_CONFIG credential fields of the enhanced module (the API_KEY
entry of each provider section). -/
structure EnvConfig where
  openaiApiKey : String
  geminiApiKey : String
  anthropicApiKey : String
  huggingfaceApiKey : String
  googleNaturalLanguageApiKey : String
  googleDocumentAiApiKey : String
  googleTranslateApiKey : String
deriving Repr, DecidableEq

/-- The availableServices state object of the enhanced module: a snapshot
of which services were configured when the snapshot was computed. -/
structure AvailableServices where
  ai : List String
  nlp : Bool
  documentAI : Bool
  translation : Bool
deriving Repr, DecidableEq

/-- Models the initializeServices method: recompute the availableServices
snapshot from the configuration passed in.  The snapshot is stored state;
later queries read the snapshot, not the live configuration. -/
def initServices (cfg : EnvConfig) : AvailableServices :=
  { ai :=
      (if cfg.openaiApiKey ≠ "" then ["openai"] else []) ++
      (if cfg.geminiApiKey ≠ "" then ["gemini"] else []) ++
      (if cfg.anthropicApiKey ≠ "" then ["anthropic"] else []) ++
      (if cfg.huggingfaceApiKey ≠ "" then ["huggingface"] else [])
    nlp := cfg.googleNaturalLanguageApiKey ≠ ""
    documentAI := cfg.googleDocumentAiApiKey ≠ ""
    translation := cfg.googleTranslateApiKey ≠ "" }

/-- The static preferences table of the selection method, keyed by task
type; none models an absent key. -/
def taskPreferences (taskType : String) : Option (List String) :=
  if taskType = "legal_qa" then some ["gemini", "openai", "anthropic", "huggingface"]
  else if taskType = "summarization" then some ["openai", "gemini", "anthropic", "huggingface"]
  else if taskType = "search" then some ["gemini", "openai", "anthropic"]
  else if taskType = "comparison" then some ["openai", "gemini", "anthropic"]
  else if taskType = "risk_analysis" then some ["gemini", "openai", "anthropic"]
  else none

/-- Models the private best-AI selection method: walk the preference list
for the task type (defaulting to the snapshot list itself for an unknown
task type) and return the first entry present in the snapshot, else the
first snapshot entry, else null. -/
def selectBestAI (svc : AvailableServices) (taskType : String) : Option String :=
  let prefs := (taskPreferences taskType).getD svc.ai
  match prefs.find? (fun ai => svc.ai.contains ai) with
  | some ai => some ai
  | none => svc.ai.head?

/-- The fixed BACKUP_AI list of the AI_STRATEGY constant. -/
def backupAIOrder : List String :=
  ["gemini", "openai", "anthropic", "huggingface"]

/-- The outcome of one generation-adapter call of the enhanced module:
thrown models a fetch rejection, a non-2xx status, or a TypeError while
dereferencing the payload; value v models a normal return (v none being
the JavaScript undefined, as when only the leaf text field is absent). -/
inductive CallOutcome where
  | thrown
  | value (v : Option String)
deriving Repr, DecidableEq

/-- One entity of the Google Natural Language response; only its name is
consumed by the enrichment paths under study. -/
structure NLEntity where
  name : String
deriving Repr, DecidableEq

/-- The fields of a 2xx Natural Language response body that the module
reads; either may be absent. -/
structure NLData where
  entities : Option (List NLEntity)
  documentSentimentScore : Option Int
deriving Repr, DecidableEq

/-- Network oracle for the enhanced module: one outcome per generation
service, plus the Natural Language endpoint outcome (none models any
failure: transport, non-2xx, or parse). -/
structure ENet where
  openaiCall : CallOutcome
  geminiCall : CallOutcome
  anthropicCall : CallOutcome
  huggingfaceCall : CallOutcome
  naturalLanguage : Option NLData
deriving Repr, DecidableEq

/-- The value computed by the Natural Language analysis method: entities
and sentiment score, with OR-defaults applied on success and the fixed
default object returned from the internal catch on any error. -/
structure NLPAnalysis where
  entities : List NLEntity
  sentimentScore : Int
deriving Repr, DecidableEq

/-- Models the private Natural Language analysis method: on a 2xx response
return the entities array (or empty) and the sentiment score (or zero); on
any error the internal catch returns empty entities and score zero.  This
method never throws. -/
def analyzeWithNaturalLanguage (net : ENet) (_text : String) : NLPAnalysis :=
  match net.naturalLanguage with
  | some d => { entities := d.entities.getD [], sentimentScore := d.documentSentimentScore.getD 0 }
  | none => { entities := [], sentimentScore := 0 }

/-- Models the private AI-service dispatch method: route to the adapter
named by the service argument; an unrecognized name, or the null produced
when no service is available, throws without invoking any adapter. -/
def callAIService (net : ENet) (service : Option String) : CallOutcome :=
  match service with
  | some "openai" => net.openaiCall
  | some "gemini" => net.geminiCall
  | some "anthropic" => net.anthropicCall
  | some "huggingface" => net.huggingfaceCall
  | _ => .thrown

/-- True exactly when the dispatch method reaches an adapter (and hence a
network invocation occurs) rather than throwing on an unknown name. -/
def isKnownService (service : Option String) : Bool :=
  service = some "openai" ∨ service = some "gemini" ∨
  service = some "anthropic" ∨ service = some "huggingface"

/-- JavaScript truthiness of a possibly-undefined string response. -/
def truthy (v : Option String) : Bool :=
  match v with
  | none => false
  | some s => s ≠ ""

/-- The private legal-prompt builder of the enhanced module. -/
def buildLegalPrompt (question context : String) : String :=
  "As an expert in Indian law, please provide a comprehensive answer to this legal question:\n\nQuestion: " ++ question ++
  "\n\nContext: " ++ context ++
  "\n\nPlease include:\n1. Relevant Indian laws and sections\n2. Legal precedents if applicable\n3. Practical implications\n4. Step-by-step guidance\n5. Important deadlines or procedures\n\nResponse:"

/-- The two context lines appended by the enrichment step of the enhanced
question-answering method, computed from the analysis value.  An empty
joined entity list is falsy, so it prints None detected; a zero score is
falsy, so it prints neutral. -/
def enrichmentNote (a : NLPAnalysis) : String :=
  let names := String.intercalate ", " (a.entities.map (fun e => e.name))
  "\n\nKey entities: " ++ (if names = "" then "None detected" else names) ++
  "\nDocument sentiment: " ++ (if a.sentimentScore = 0 then "neutral" else toString a.sentimentScore)

/-- The fallback legal response of the enhanced module (its private
fallback method), returned when every attempted service failed or none
was available. -/
def getFallbackLegalResponse (question : String) : String :=
  "**Legal Question: \"" ++ question ++ "\"**\n\n⚠️ *This is a demonstration response. Configure your AI services for full functionality.*\n\nFor comprehensive legal advice on this question, I recommend:\n\n**Relevant Indian Legal Framework:**\n- The Indian Constitution (Fundamental Rights & DPSP)\n- Indian Contract Act, 1872\n- Indian Penal Code, 1860\n- Code of Civil Procedure, 1908\n- Indian Evidence Act, 1872\n\n**Recommended Actions:**\n1. Consult with a qualified legal practitioner\n2. Review relevant case law on legal databases\n3. Check for recent amendments to applicable acts\n4. Consider jurisdiction-specific variations\n\n**Legal Resources:**\n- Supreme Court of India judgments\n- High Court decisions\n- Legal databases (Manupatra, SCC Online)\n- Bar Council of India guidelines\n\n*For personalized legal advice, please consult with a licensed attorney.*"

/-- The backup loop of the enhanced question-answering method: walk the
BACKUP_AI order; for each backup present in the snapshot and different
from the primary service, call it inside its own try/catch; stop at the
first truthy response.  Returns the first truthy response, if any, and the
(service, prompt) invocations made. -/
def backupLoop (ai : List String) (net : ENet) (prompt : String)
    (primary : Option String) : List String → Option String × List (String × String)
  | [] => (none, [])
  | b :: rest =>
    if ai.contains b ∧ primary ≠ some b then
      match callAIService net (some b) with
      | .thrown =>
        let (r, tr) := backupLoop ai net prompt primary rest
        (r, (b, prompt) :: tr)
      | .value v =>
        if truthy v then (some (v.getD ""), [(b, prompt)])
        else
          let (r, tr) := backupLoop ai net prompt primary rest
          (r, (b, prompt) :: tr)
    else backupLoop ai net prompt primary rest

/-- The enhanced question-answering method.  Select the service from the
preference table; when the NLP service is flagged available and the
context is truthy, run the (never-throwing) enrichment analysis and append
its two context lines; build the prompt; call the primary service (a throw
here reaches the outer catch and returns the fallback, skipping backups);
on a falsy response with more than one snapshot service, run the backup
loop; finally OR the response with the fallback.  The second component
lists the (service, prompt) generation invocations actually made. -/
def askLegalQuestion (svc : AvailableServices) (net : ENet)
    (question documentContext : String) : String × List (String × String) :=
  let aiService := selectBestAI svc "legal_qa"
  let enhancedContext :=
    if svc.nlp ∧ documentContext ≠ "" then
      documentContext ++ enrichmentNote (analyzeWithNaturalLanguage net (documentContext.take 1000))
    else documentContext
  let prompt := buildLegalPrompt question enhancedContext
  let primaryTrace := if isKnownService aiService then [(aiService.getD "", prompt)] else []
  match callAIService net aiService with
  | .thrown => (getFallbackLegalResponse question, primaryTrace)
  | .value v =>
    if truthy v then (v.getD "", primaryTrace)
    else if 1 < svc.ai.length then
      match backupLoop svc.ai net prompt aiService backupAIOrder with
      | (some s, tr) => (s, primaryTrace ++ tr)
      | (none, tr) => (getFallbackLegalResponse question, primaryTrace ++ tr)
    else (getFallbackLegalResponse question, primaryTrace)

end Enhanced

/-!  Well-formedness predicates on oracle payloads, and concrete fixtures
used by the theorems below.  -/

/-- Every chat payload offered by the oracle carries its content leaf:
whenever the dereference path choices-head-message succeeds, the content
field is present (a string, not undefined). -/
def chatLeafOk (o : Option Basic.OpenAIPayload) : Prop :=
  ∀ p c cs m, o = some p → p.choices = some (c :: cs) → c.message = some m →
    m.content.isSome = true

/-- Every Gemini payload offered by the oracle carries its text leaf. -/
def geminiLeafOk (o : Option Basic.GeminiPayload) : Prop :=
  ∀ p c cs ct pt pts, o = some p → p.candidates = some (c :: cs) → c.content = some ct →
    ct.parts = some (pt :: pts) → pt.text.isSome = true

/-- Every MyMemory payload offered by the oracle carries its
translatedText leaf. -/
def mymemoryLeafOk (o : Option Basic.MyMemoryPayload) : Prop :=
  ∀ p d, o = some p → p.responseData = some d → d.translatedText.isSome = true

/-- Configuration with every credential field empty. -/
def cfgEmpty : Basic.Config :=
  { openaiKey := "", geminiKey := "", huggingfaceKey := "" }

/-- Configuration with the two generation credentials set. -/
def cfgBoth : Basic.Config :=
  { openaiKey := "sk-test", geminiKey := "gm-test", huggingfaceKey := "" }

/-- Configuration with all three credentials set. -/
def cfgAll : Basic.Config :=
  { openaiKey := "sk-test", geminiKey := "gm-test", huggingfaceKey := "hf-test" }

/-- A well-formed OpenAI chat payload whose first choice carries s. -/
def openaiOkPayload (s : String) : Basic.OpenAIPayload :=
  { choices := some [{ message := some { content := some s } }] }

/-- A well-formed Gemini payload whose first candidate carries s. -/
def geminiOkPayload (s : String) : Basic.GeminiPayload :=
  { candidates := some [{ content := some { parts := some [{ text := some s }] } }] }

/-- Oracle on which every endpoint fails at the transport level. -/
def netAllFail : Basic.Net :=
  { openai := none, gemini := none, huggingface := none, mymemory := none }

/-- Oracle on which every endpoint succeeds with a well-formed payload. -/
def netAllOk : Basic.Net :=
  { openai := some (openaiOkPayload "openai text")
    gemini := some (geminiOkPayload "gemini text")
    huggingface := some (.arr [{ word := "Ravi Kumar", entity_group := "PER" }])
    mymemory := some { responseData := some { translatedText := some "namaste" } } }

/-- Oracle on which only the MyMemory translation call succeeds. -/
def netMyMemoryOk : Basic.Net :=
  { openai := none, gemini := none, huggingface := none,
    mymemory := some { responseData := some { translatedText := some "namaste" } } }

/-- Oracle on which the OpenAI call fails at the transport level while the
Gemini call succeeds. -/
def netOpenAIFailGeminiOk : Basic.Net :=
  { openai := none, gemini := some (geminiOkPayload "gemini recovery"),
    huggingface := none, mymemory := none }

/-- Oracle on which both generation calls succeed with well-formed
payloads. -/
def netBothOk : Basic.Net :=
  { openai := some (openaiOkPayload "openai answer")
    gemini := some (geminiOkPayload "gemini answer")
    huggingface := none, mymemory := none }

/-- Oracle on which the OpenAI call returns 2xx with a payload whose first
choice has a message object but no content leaf, while Gemini would
succeed. -/
def netOpenAILeafMissing : Basic.Net :=
  { openai := some { choices := some [{ message := some { content := none } }] }
    gemini := some (geminiOkPayload "gemini ok")
    huggingface := none, mymemory := none }

/-- Oracle on which the OpenAI call returns 2xx with a payload missing the
choices array, the entity endpoint returns a non-array body, and Gemini
would succeed. -/
def netMalformedOpenAI : Basic.Net :=
  { openai := some { choices := none }
    gemini := some (geminiOkPayload "gemini fallback")
    huggingface := some .nonArray
    mymemory := none }

/-- Oracle on which the MyMemory call returns 2xx with a responseData
object that lacks the translatedText leaf. -/
def netTranslateLeafMissing : Basic.Net :=
  { openai := none, gemini := none, huggingface := none,
    mymemory := some { responseData := some { translatedText := none } } }

/-- Enhanced-module snapshot with only Gemini among the generation
services and the NLP service flagged available. -/
def svcGeminiNlp : Enhanced.AvailableServices :=
  { ai := ["gemini"], nlp := true, documentAI := false, translation := false }

/-- Enhanced-module snapshot with both OpenAI and Gemini among the
generation services. -/
def svcBothAI : Enhanced.AvailableServices :=
  { ai := ["openai", "gemini"], nlp := false, documentAI := false, translation := false }

/-- Enhanced-module oracle on which the enrichment endpoint always errors
and the Gemini generation call succeeds. -/
def enetEnrichFail : Enhanced.ENet :=
  { openaiCall := .thrown, geminiCall := .value (some "generated answer"),
    anthropicCall := .thrown, huggingfaceCall := .thrown, naturalLanguage := none }

/-- Enhanced-module configuration with no credential at all. -/
def ecfgNone : Enhanced.EnvConfig :=
  { openaiApiKey := "", geminiApiKey := "", anthropicApiKey := "", huggingfaceApiKey := ""
    googleNaturalLanguageApiKey := "", googleDocumentAiApiKey := "", googleTranslateApiKey := "" }

/-- The configuration after a user stores an OpenAI credential. -/
def ecfgOpenAI : Enhanced.EnvConfig :=
  { ecfgNone with openaiApiKey := "sk-new" }


/-!  Theorems settling the claims.  -/

/-- Claim C1, counterexample.  The claim quantifies over all five task
entry points, translateText included.  With every credential field empty,
translateText still performs its single external call; on the oracle where
that call succeeds the returned result is not degraded, refuting the claim
that every entry point returns a degraded result in such configurations. -/
theorem claim_C1_counterexample :
    cfgEmpty.openaiKey = "" ∧ cfgEmpty.geminiKey = "" ∧ cfgEmpty.huggingfaceKey = "" ∧
    (Basic.translateText cfgEmpty netMyMemoryOk "hello" "en" "hi").1.degraded = false :=
  ⟨rfl, rfl, rfl, rfl⟩

/-- Claim C1, amended.  In every configuration with all credential fields
empty, the four credentialed entry points (summarizeDocument,
askLegalQuestion, performSemanticSearch, extractEntities) return a
degraded result under every network oracle, and all entry points are
total (no exception escapes); translateText, which consults no
credential, returns a degraded result exactly when its single external
call fails. -/
theorem claim_C1_amended (cfg : Basic.Config) (net : Basic.Net)
    (text summaryType length question documentContext query documentText
      etext ttext sourceLang targetLang : String)
    (ho : cfg.openaiKey = "") (hg : cfg.geminiKey = "") (hh : cfg.huggingfaceKey = "") :
    (Basic.summarizeDocument cfg net text summaryType length).1.degraded = true ∧
    (Basic.askLegalQuestion cfg net question documentContext).1.degraded = true ∧
    (Basic.performSemanticSearch cfg net query documentText).1.degraded = true ∧
    (Basic.extractEntities cfg net etext).1.degraded = true ∧
    ((Basic.translateText cfg net ttext sourceLang targetLang).1.degraded = true ↔
      Basic.mymemoryCallFailed net = true) := by
  refine ⟨?_, ?_, ?_, ?_, ?_⟩
  · simp [Basic.summarizeDocument, ho, hg]
  · simp [Basic.askLegalQuestion, ho, hg]
  · simp [Basic.performSemanticSearch, ho, hg]
  · simp [Basic.extractEntities, hh]
  · cases hm : net.mymemory with
    | none => simp [Basic.translateText, Basic.mymemoryCallFailed, hm]
    | some p =>
      cases hd : p.responseData <;>
        simp [Basic.translateText, Basic.mymemoryCallFailed, hm, hd]

/-- Claim C1, witness: the amended theorem applied to the all-empty
configuration and the all-failing oracle. -/
theorem claim_C1_witness :
    (Basic.summarizeDocument cfgEmpty netAllFail "doc" "comprehensive" "medium").1.degraded = true :=
  (claim_C1_amended cfgEmpty netAllFail "doc" "comprehensive" "medium" "q" "" "query"
    "body" "etext" "hello" "en" "hi" rfl rfl rfl).1

/-- Claim C9, counterexample.  A summaryType outside the four recognized
values is not rejected: summarizeDocument returns normally, substituting
the comprehensive mock summary on the degraded path, and the prompt it
builds silently embeds the string undefined. -/
theorem claim_C9_counterexample :
    (Basic.summarizeDocument cfgEmpty netAllFail "doc" "bogus" "medium").1 =
      { payload := some (Basic.getMockSummary "comprehensive"), provider := none, degraded := true } ∧
    Basic.buildSummaryPrompt "doc" "bogus" "medium" =
      "undefined Provide a moderate length summary (4-6 paragraphs)" :=
  ⟨rfl, rfl⟩

/-- Claim C9, amended.  An invalid summaryType is not surfaced as an
error and aborts nothing: the prompts lookup yields undefined, so the
prompt sent onward embeds the string undefined; the provider chain is
still entered normally (OpenAI is attempted first whenever its key is
configured); and with no provider configured the mock table substitutes
the comprehensive default summary instead of failing. -/
theorem claim_C9_amended (cfg : Basic.Config) (net : Basic.Net) (text summaryType length : String)
    (h1 : summaryType ≠ "comprehensive") (h2 : summaryType ≠ "executive")
    (h3 : summaryType ≠ "key-points") (h4 : summaryType ≠ "timeline") :
    Basic.getMockSummary summaryType = Basic.getMockSummary "comprehensive" ∧
    Basic.buildSummaryPrompt text summaryType length =
      "undefined " ++ Basic.strOrUndef (Basic.lengthInstructions length) ∧
    (cfg.openaiKey ≠ "" →
      (Basic.summarizeDocument cfg net text summaryType length).2.head? =
        some Basic.Provider.openai) ∧
    (cfg.openaiKey = "" → cfg.geminiKey = "" →
      Basic.summarizeDocument cfg net text summaryType length =
        ({ payload := some (Basic.getMockSummary "comprehensive"), provider := none,
           degraded := true }, [])) := by
  have hmock : Basic.getMockSummary summaryType = Basic.getMockSummary "comprehensive" := by
    simp [Basic.getMockSummary, Basic.mockSummaries, Basic.strOrUndef, h1, h2, h3, h4]
  refine ⟨hmock, ?_, ?_, ?_⟩
  · simp [Basic.buildSummaryPrompt, Basic.summaryPrompts, Basic.strOrUndef, h1, h2, h3, h4]
  · intro ho
    simp only [Basic.summarizeDocument]
    rw [if_pos ho]
    cases h : Basic.summarizeWithOpenAI net
        (Basic.buildSummaryPrompt text summaryType length) with
    | ok v => rfl
    | error e =>
      by_cases hg : cfg.geminiKey = ""
      · simp [hg]
      · cases h2g : Basic.summarizeWithGemini net
            (Basic.buildSummaryPrompt text summaryType length) <;> simp [hg]
  · intro ho hg
    simp [Basic.summarizeDocument, ho, hg, hmock]

/-- Claim C9, witness: the amended theorem applied at the invalid
summaryType bogus with the OpenAI key configured, discharging the
chain-dispatch hypothesis. -/
theorem claim_C9_witness :
    (Basic.summarizeDocument cfgBoth netAllFail "doc" "bogus" "medium").2.head? =
      some Basic.Provider.openai :=
  (claim_C9_amended cfgBoth netAllFail "doc" "bogus" "medium"
    (by decide) (by decide) (by decide) (by decide)).2.2.1 (by decide)

/-- Claim C10, confirmed.  translateText ignores the configuration
entirely (the result is the same for any two configurations), makes
exactly one adapter invocation (the MyMemory call), returns a degraded
result exactly when that call fails (transport failure or missing
responseData object), in which case the payload is the mock translation,
which embeds the language pair, the original text, and an explicit
mock-translation notice. -/
theorem claim_C10_translate (cfg cfg2 : Basic.Config) (net : Basic.Net)
    (text sourceLang targetLang : String) :
    Basic.translateText cfg net text sourceLang targetLang =
      Basic.translateText cfg2 net text sourceLang targetLang ∧
    (Basic.translateText cfg net text sourceLang targetLang).2 = [Basic.Provider.mymemory] ∧
    ((Basic.translateText cfg net text sourceLang targetLang).1.degraded = true ↔
      Basic.mymemoryCallFailed net = true) ∧
    (Basic.mymemoryCallFailed net = true →
      (Basic.translateText cfg net text sourceLang targetLang).1.payload =
        some (Basic.getMockTranslation text sourceLang targetLang)) ∧
    Basic.getMockTranslation text sourceLang targetLang =
      "[Translation from " ++ sourceLang ++ " to " ++ targetLang ++ "]: " ++ text ++
        " [This is a mock translation. Please use a proper translation service for accurate results.]" := by
  refine ⟨rfl, ?_, ?_, ?_, rfl⟩ <;>
  · cases hm : net.mymemory with
    | none => simp [Basic.translateText, Basic.mymemoryCallFailed, hm]
    | some p =>
      cases hd : p.responseData <;>
        simp [Basic.translateText, Basic.mymemoryCallFailed, hm, hd]

/-- Claim C10, witness: the theorem applied at the all-failing oracle,
discharging the failure hypothesis of its mock-payload conjunct. -/
theorem claim_C10_witness :
    (Basic.translateText cfgEmpty netAllFail "hello" "en" "hi").1.payload =
      some (Basic.getMockTranslation "hello" "en" "hi") :=
  (claim_C10_translate cfgEmpty cfgBoth netAllFail "hello" "en" "hi").2.2.2.1 rfl

/-- Claim C2, confirmed.  Whenever the highest-preference provider of a
task is available and its adapter call returns (OpenAI for the three
generation-backed tasks, Hugging Face for entity extraction, MyMemory for
translation), the returned result is the one that provider produced, the
invocation trace contains exactly that provider (no lower-preference
adapter is invoked), and execution stops at that first success. -/
theorem claim_C2_first_choice (cfg : Basic.Config) (net : Basic.Net)
    (text summaryType length question documentContext query documentText
      etext ttext sourceLang targetLang : String)
    (p : Basic.OpenAIPayload) (c : Basic.ChatChoice) (cs : List Basic.ChatChoice)
    (m : Basic.ChatMessage) (es : List Basic.HFEntity) (md : Basic.MyMemoryData)
    (ho : cfg.openaiKey ≠ "") (hh : cfg.huggingfaceKey ≠ "")
    (hp : net.openai = some p) (hc : p.choices = some (c :: cs)) (hm : c.message = some m)
    (hhf : net.huggingface = some (Basic.HFResp.arr es))
    (hmm : net.mymemory = some { responseData := some md }) :
    Basic.summarizeDocument cfg net text summaryType length =
      ({ payload := m.content, provider := some .openai, degraded := false }, [.openai]) ∧
    Basic.askLegalQuestion cfg net question documentContext =
      ({ payload := m.content, provider := some .openai, degraded := false }, [.openai]) ∧
    Basic.performSemanticSearch cfg net query documentText =
      ({ payload := m.content, provider := some .openai, degraded := false }, [.openai]) ∧
    Basic.extractEntities cfg net etext =
      ({ payload := Basic.processEntityResponse es, provider := some .huggingface,
         degraded := false }, [.huggingface]) ∧
    Basic.translateText cfg net ttext sourceLang targetLang =
      ({ payload := md.translatedText, provider := some .mymemory, degraded := false },
       [.mymemory]) := by
  have hsw : ∀ pr, Basic.summarizeWithOpenAI net pr = .ok m.content := by
    intro pr
    simp [Basic.summarizeWithOpenAI, hp, hc, hm]
  refine ⟨?_, ?_, ?_, ?_, ?_⟩
  · simp [Basic.summarizeDocument, ho, hsw]
  · simp [Basic.askLegalQuestion, ho, hsw]
  · simp [Basic.performSemanticSearch, ho, hsw]
  · simp [Basic.extractEntities, hh, hhf]
  · simp [Basic.translateText, hmm]

/-- Claim C2, witness: the theorem applied to the all-configured
configuration and the all-succeeding oracle. -/
theorem claim_C2_witness :
    Basic.summarizeDocument cfgAll netAllOk "doc" "comprehensive" "medium" =
      ({ payload := some "openai text", provider := some .openai, degraded := false },
       [.openai]) :=
  (claim_C2_first_choice cfgAll netAllOk "doc" "comprehensive" "medium" "q" "" "query"
    "body" "etext" "hello" "en" "hi"
    (openaiOkPayload "openai text") { message := some { content := some "openai text" } } []
    { content := some "openai text" } [{ word := "Ravi Kumar", entity_group := "PER" }]
    { translatedText := some "namaste" }
    (by decide) (by decide) rfl rfl rfl rfl rfl).1

/-- Claim C3, counterexample.  In performSemanticSearch the try/catch
wraps the whole provider chain, so when the first available provider
(OpenAI) throws, execution jumps straight to the mock fallback: only one
adapter invocation occurs and the result is degraded, even though Gemini
is configured and its call would succeed — refuting the claim that the
executor always advances to the next provider and that exactly two
invocations occur. -/
theorem claim_C3_counterexample :
    cfgBoth.geminiKey ≠ "" ∧
    Basic.summarizeWithGemini netOpenAIFailGeminiOk "p" = .ok (some "gemini recovery") ∧
    (Basic.performSemanticSearch cfgBoth netOpenAIFailGeminiOk "q" "body").1.degraded = true ∧
    (Basic.performSemanticSearch cfgBoth netOpenAIFailGeminiOk "q" "body").2 =
      [Basic.Provider.openai] :=
  ⟨by decide, rfl, rfl, rfl⟩

/-- Claim C3, amended.  For summarizeDocument and askLegalQuestion the
claimed behavior holds: when the OpenAI call fails at the transport level
and the Gemini call succeeds, the result is sourced from Gemini and
exactly two adapter invocations occur.  performSemanticSearch, however,
skips directly to degradation after the first failure (one invocation)
because its single try/catch spans the whole chain. -/
theorem claim_C3_amended (cfg : Basic.Config) (net : Basic.Net)
    (text summaryType length question documentContext query documentText : String)
    (gp : Basic.GeminiPayload) (gc : Basic.GeminiCandidate) (gcs : List Basic.GeminiCandidate)
    (gct : Basic.GeminiContent) (gpt : Basic.GeminiPart) (gpts : List Basic.GeminiPart)
    (ho : cfg.openaiKey ≠ "") (hg : cfg.geminiKey ≠ "")
    (hfail : net.openai = none)
    (h1 : net.gemini = some gp) (h2 : gp.candidates = some (gc :: gcs))
    (h3 : gc.content = some gct) (h4 : gct.parts = some (gpt :: gpts)) :
    Basic.summarizeDocument cfg net text summaryType length =
      ({ payload := gpt.text, provider := some .gemini, degraded := false },
       [.openai, .gemini]) ∧
    Basic.askLegalQuestion cfg net question documentContext =
      ({ payload := gpt.text, provider := some .gemini, degraded := false },
       [.openai, .gemini]) ∧
    Basic.performSemanticSearch cfg net query documentText =
      ({ payload := some (Basic.getMockSearchResults query), provider := none,
         degraded := true }, [.openai]) := by
  have hswo : ∀ pr, Basic.summarizeWithOpenAI net pr = .error () := by
    intro pr
    simp [Basic.summarizeWithOpenAI, hfail]
  have hswg : ∀ pr, Basic.summarizeWithGemini net pr = .ok gpt.text := by
    intro pr
    simp [Basic.summarizeWithGemini, h1, h2, h3, h4]
  refine ⟨?_, ?_, ?_⟩
  · simp [Basic.summarizeDocument, ho, hg, hswo, hswg]
  · simp [Basic.askLegalQuestion, ho, hg, hswo, hswg]
  · simp [Basic.performSemanticSearch, ho, hswo]

/-- Claim C3, witness: the amended theorem applied to the oracle on which
OpenAI fails and Gemini succeeds. -/
theorem claim_C3_witness :
    Basic.summarizeDocument cfgBoth netOpenAIFailGeminiOk "doc" "comprehensive" "medium" =
      ({ payload := some "gemini recovery", provider := some .gemini, degraded := false },
       [.openai, .gemini]) :=
  (claim_C3_amended cfgBoth netOpenAIFailGeminiOk "doc" "comprehensive" "medium" "q" ""
    "query" "body"
    (geminiOkPayload "gemini recovery")
    { content := some { parts := some [{ text := some "gemini recovery" }] } } []
    { parts := some [{ text := some "gemini recovery" }] } { text := some "gemini recovery" } []
    (by decide) (by decide) rfl rfl rfl rfl rfl).1

/-- Claim C4, counterexample.  In the api-integrations.js variant the
question-answering chain attempts OpenAI first, exactly like
summarization: with both providers configured and both succeeding, the
Q-and-A result is attributed to OpenAI and OpenAI heads the invocation
trace — refuting the claim that for question answering Gemini is
attempted before OpenAI in every configuration where both are
available. -/
theorem claim_C4_counterexample :
    cfgBoth.openaiKey ≠ "" ∧ cfgBoth.geminiKey ≠ "" ∧
    (Basic.askLegalQuestion cfgBoth netBothOk "What is stamp duty?" "").2 =
      [Basic.Provider.openai] ∧
    (Basic.askLegalQuestion cfgBoth netBothOk "What is stamp duty?" "").1.provider =
      some Basic.Provider.openai :=
  ⟨by decide, by decide, rfl, rfl⟩

/-- Claim C4, amended.  The static preference table of the enhanced
variant does rank Gemini before OpenAI for question answering and OpenAI
before Gemini for summarization: whenever Gemini is in the snapshot the
selection for legal-qa is Gemini, and whenever OpenAI is in the snapshot
the selection for summarization is OpenAI.  In the api-integrations.js
variant, however, both askLegalQuestion and summarizeDocument attempt
OpenAI first whenever it is configured, so the question-answering order
does not differ from the summarization order there. -/
theorem claim_C4_amended (svc : Enhanced.AvailableServices) (cfg : Basic.Config)
    (net : Basic.Net) (question documentContext text summaryType length : String)
    (hgem : "gemini" ∈ svc.ai) (hopen : "openai" ∈ svc.ai)
    (ho : cfg.openaiKey ≠ "") :
    Enhanced.selectBestAI svc "legal_qa" = some "gemini" ∧
    Enhanced.selectBestAI svc "summarization" = some "openai" ∧
    (Basic.askLegalQuestion cfg net question documentContext).2.head? =
      some Basic.Provider.openai ∧
    (Basic.summarizeDocument cfg net text summaryType length).2.head? =
      some Basic.Provider.openai := by
  refine ⟨?_, ?_, ?_, ?_⟩
  · simp [Enhanced.selectBestAI, Enhanced.taskPreferences, List.find?, hgem]
  · simp [Enhanced.selectBestAI, Enhanced.taskPreferences, List.find?, hopen]
  · simp only [Basic.askLegalQuestion]
    rw [if_pos ho]
    cases h : Basic.summarizeWithOpenAI net
        (Basic.buildLegalQuestionPrompt question documentContext) with
    | ok v => rfl
    | error e =>
      by_cases hg : cfg.geminiKey = ""
      · simp [hg]
      · cases h2 : Basic.summarizeWithGemini net
            (Basic.buildLegalQuestionPrompt question documentContext) <;> simp [hg]
  · simp only [Basic.summarizeDocument]
    rw [if_pos ho]
    cases h : Basic.summarizeWithOpenAI net
        (Basic.buildSummaryPrompt text summaryType length) with
    | ok v => rfl
    | error e =>
      by_cases hg : cfg.geminiKey = ""
      · simp [hg]
      · cases h2 : Basic.summarizeWithGemini net
            (Basic.buildSummaryPrompt text summaryType length) <;> simp [hg]

/-- Claim C4, witness: the amended theorem applied to a snapshot holding
both services and a configuration with the OpenAI key set. -/
theorem claim_C4_witness :
    Enhanced.selectBestAI svcBothAI "legal_qa" = some "gemini" :=
  (claim_C4_amended svcBothAI cfgBoth netBothOk "q" "" "doc" "comprehensive" "medium"
    (by decide) (by decide) (by decide)).1

/-- Claim C8, counterexample.  The enhanced variant caches availability in
the availableServices snapshot computed at service-init time: after the
configuration gains an OpenAI credential, a query running against the
snapshot of the old configuration still selects no provider, so a query
after a configuration change does not reflect the new configuration until
the snapshot is recomputed. -/
theorem claim_C8_counterexample :
    ecfgOpenAI.openaiApiKey ≠ "" ∧
    Enhanced.selectBestAI (Enhanced.initServices ecfgNone) "summarization" = none ∧
    Enhanced.selectBestAI (Enhanced.initServices ecfgOpenAI) "summarization" =
      some "openai" :=
  ⟨by decide, rfl, rfl⟩

/-- Claim C8, amended.  The getAvailableAPIs query of the
api-integrations.js variant is a pure function of the current
configuration: a provider is listed iff its credential is non-empty, with
no network call and no staleness.  The enhanced variant satisfies the
credential-presence biconditional only at snapshot time: its
initializeServices recomputation lists a service iff the credential was
non-empty in the configuration it was computed from. -/
theorem claim_C8_amended (cfg : Basic.Config) (ecfg : Enhanced.EnvConfig) :
    ("OpenAI" ∈ Basic.getAvailableAPIs cfg ↔ cfg.openaiKey ≠ "") ∧
    ("Gemini" ∈ Basic.getAvailableAPIs cfg ↔ cfg.geminiKey ≠ "") ∧
    ("Hugging Face" ∈ Basic.getAvailableAPIs cfg ↔ cfg.huggingfaceKey ≠ "") ∧
    ("openai" ∈ (Enhanced.initServices ecfg).ai ↔ ecfg.openaiApiKey ≠ "") ∧
    ("gemini" ∈ (Enhanced.initServices ecfg).ai ↔ ecfg.geminiApiKey ≠ "") ∧
    ("anthropic" ∈ (Enhanced.initServices ecfg).ai ↔ ecfg.anthropicApiKey ≠ "") ∧
    ("huggingface" ∈ (Enhanced.initServices ecfg).ai ↔ ecfg.huggingfaceApiKey ≠ "") := by
  refine ⟨?_, ?_, ?_, ?_, ?_, ?_, ?_⟩
  · by_cases h1 : cfg.openaiKey = "" <;> by_cases h2 : cfg.geminiKey = "" <;>
      by_cases h3 : cfg.huggingfaceKey = "" <;> simp [Basic.getAvailableAPIs, h1, h2, h3]
  · by_cases h1 : cfg.openaiKey = "" <;> by_cases h2 : cfg.geminiKey = "" <;>
      by_cases h3 : cfg.huggingfaceKey = "" <;> simp [Basic.getAvailableAPIs, h1, h2, h3]
  · by_cases h1 : cfg.openaiKey = "" <;> by_cases h2 : cfg.geminiKey = "" <;>
      by_cases h3 : cfg.huggingfaceKey = "" <;> simp [Basic.getAvailableAPIs, h1, h2, h3]
  · by_cases h1 : ecfg.openaiApiKey = "" <;> by_cases h2 : ecfg.geminiApiKey = "" <;>
      by_cases h3 : ecfg.anthropicApiKey = "" <;> by_cases h4 : ecfg.huggingfaceApiKey = "" <;>
      simp [Enhanced.initServices, h1, h2, h3, h4]
  · by_cases h1 : ecfg.openaiApiKey = "" <;> by_cases h2 : ecfg.geminiApiKey = "" <;>
      by_cases h3 : ecfg.anthropicApiKey = "" <;> by_cases h4 : ecfg.huggingfaceApiKey = "" <;>
      simp [Enhanced.initServices, h1, h2, h3, h4]
  · by_cases h1 : ecfg.openaiApiKey = "" <;> by_cases h2 : ecfg.geminiApiKey = "" <;>
      by_cases h3 : ecfg.anthropicApiKey = "" <;> by_cases h4 : ecfg.huggingfaceApiKey = "" <;>
      simp [Enhanced.initServices, h1, h2, h3, h4]
  · by_cases h1 : ecfg.openaiApiKey = "" <;> by_cases h2 : ecfg.geminiApiKey = "" <;>
      by_cases h3 : ecfg.anthropicApiKey = "" <;> by_cases h4 : ecfg.huggingfaceApiKey = "" <;>
      simp [Enhanced.initServices, h1, h2, h3, h4]

/-- Claim C5, counterexample.  With the NLP service available and an
always-erroring enrichment endpoint, the enhanced question-answering
method still appends the two boilerplate context lines (entities: None
detected, sentiment: neutral) before building the generation prompt, so
the request reaching the generation adapter is not the original
unmodified one. -/
theorem claim_C5_counterexample :
    svcGeminiNlp.nlp = true ∧
    (Enhanced.askLegalQuestion svcGeminiNlp enetEnrichFail "q" "ctx").2 =
      [("gemini", Enhanced.buildLegalPrompt "q"
        ("ctx" ++ "\n\nKey entities: None detected\nDocument sentiment: neutral"))] ∧
    Enhanced.buildLegalPrompt "q"
        ("ctx" ++ "\n\nKey entities: None detected\nDocument sentiment: neutral") ≠
      Enhanced.buildLegalPrompt "q" "ctx" := by
  refine ⟨rfl, rfl, ?_⟩
  decide

/-- Claim C5, amended.  Enrichment failure is indeed non-fatal and never
prevents the generation call: with an always-erroring enrichment
endpoint the call behaves exactly like a call with enrichment disabled on
the context extended by the fixed boilerplate lines (rather than on the
original context unmodified, as claimed), and whenever the selected
service is a real one the generation invocation trace is non-empty. -/
theorem claim_C5_amended (svc : Enhanced.AvailableServices) (net : Enhanced.ENet)
    (question documentContext : String)
    (hn : svc.nlp = true) (hc : documentContext ≠ "")
    (hfail : net.naturalLanguage = none) :
    Enhanced.askLegalQuestion svc net question documentContext =
      Enhanced.askLegalQuestion { svc with nlp := false } net question
        (documentContext ++ "\n\nKey entities: None detected\nDocument sentiment: neutral") ∧
    (Enhanced.isKnownService (Enhanced.selectBestAI svc "legal_qa") = true →
      (Enhanced.askLegalQuestion svc net question documentContext).2 ≠ []) := by
  obtain ⟨ai, nlp, dai, tr⟩ := svc
  simp only at hn
  subst hn
  constructor
  · have h1 : Enhanced.analyzeWithNaturalLanguage net (documentContext.take 1000) =
        { entities := [], sentimentScore := 0 } := by
      simp [Enhanced.analyzeWithNaturalLanguage, hfail]
    have h2 : Enhanced.enrichmentNote { entities := [], sentimentScore := 0 } =
        "\n\nKey entities: None detected\nDocument sentiment: neutral" := rfl
    simp [Enhanced.askLegalQuestion, Enhanced.selectBestAI, h1, h2, hc]
  · intro hknown
    simp only [Enhanced.askLegalQuestion, hknown, if_true]
    cases Enhanced.callAIService net
        (Enhanced.selectBestAI { ai := ai, nlp := true, documentAI := dai, translation := tr }
          "legal_qa") with
    | thrown => simp
    | value v =>
      by_cases hv : Enhanced.truthy v = true
      · simp [hv]
      · by_cases hl : 1 < ai.length
        · simp only [hv, hl, if_true, if_false, Bool.false_eq_true]
          split <;> simp
        · simp [hv, hl]

/-- Claim C5, witness: the amended theorem applied to the Gemini-plus-NLP
snapshot and the oracle with an always-failing enrichment endpoint. -/
theorem claim_C5_witness :
    Enhanced.askLegalQuestion svcGeminiNlp enetEnrichFail "q" "ctx" =
      Enhanced.askLegalQuestion { svcGeminiNlp with nlp := false } enetEnrichFail "q"
        ("ctx" ++ "\n\nKey entities: None detected\nDocument sentiment: neutral") :=
  (claim_C5_amended svcGeminiNlp enetEnrichFail "q" "ctx" rfl (by decide) rfl).1

/-- Claim C6, counterexample.  A success-status OpenAI payload whose first
choice has a message but no content leaf is not treated as an adapter
failure: the dereference evaluates to undefined, summarizeDocument
returns it as a non-degraded result attributed to OpenAI, and Gemini —
which would succeed — is never invoked. -/
theorem claim_C6_counterexample :
    cfgBoth.geminiKey ≠ "" ∧
    (Basic.summarizeDocument cfgBoth netOpenAILeafMissing "doc" "comprehensive" "medium").1 =
      { payload := none, provider := some Basic.Provider.openai, degraded := false } ∧
    (Basic.summarizeDocument cfgBoth netOpenAILeafMissing "doc" "comprehensive" "medium").2 =
      [Basic.Provider.openai] ∧
    Basic.summarizeWithGemini netOpenAILeafMissing "p" = .ok (some "gemini ok") :=
  ⟨by decide, rfl, rfl, rfl⟩

/-- Claim C6, amended.  A payload missing an intermediate field on the
dereference path throws: for OpenAI a missing choices array, an empty
choices array, or a missing message object; for Gemini a missing or empty
candidates array, a missing content object, or a missing or empty parts
array.  Any throwing OpenAI attempt is handled by every chain exactly as
an OpenAI transport failure, any throwing Gemini attempt exactly as a
Gemini transport failure, and a non-array entity response exactly as an
entity transport failure.  Only a payload missing just the leaf text
field escapes this classification: a Gemini payload whose first part
lacks the text leaf normalizes to an undefined success, and a MyMemory
payload whose responseData lacks the translatedText leaf makes
translateText return a non-degraded undefined result (see also the
counterexample for the OpenAI content leaf). -/
theorem claim_C6_amended (cfg : Basic.Config) (net : Basic.Net)
    (text summaryType length question documentContext query documentText
      etext ttext sourceLang targetLang pr : String) :
    Basic.summarizeWithOpenAI { net with openai := some { choices := none } } pr = .error () ∧
    Basic.summarizeWithOpenAI { net with openai := some { choices := some [] } } pr = .error () ∧
    Basic.summarizeWithOpenAI
        { net with openai := some { choices := some [{ message := none }] } } pr = .error () ∧
    Basic.summarizeWithGemini { net with gemini := some { candidates := none } } pr = .error () ∧
    Basic.summarizeWithGemini { net with gemini := some { candidates := some [] } } pr = .error () ∧
    Basic.summarizeWithGemini
        { net with gemini := some { candidates := some [{ content := none }] } } pr = .error () ∧
    Basic.summarizeWithGemini
        { net with gemini := some { candidates := some [{ content := some { parts := none } }] } } pr
      = .error () ∧
    Basic.summarizeWithGemini
        { net with gemini := some { candidates := some [{ content := some { parts := some [] } }] } } pr
      = .error () ∧
    ((∀ p, Basic.summarizeWithOpenAI net p = .error ()) →
      Basic.summarizeDocument cfg net text summaryType length =
        Basic.summarizeDocument cfg { net with openai := none } text summaryType length ∧
      Basic.askLegalQuestion cfg net question documentContext =
        Basic.askLegalQuestion cfg { net with openai := none } question documentContext ∧
      Basic.performSemanticSearch cfg net query documentText =
        Basic.performSemanticSearch cfg { net with openai := none } query documentText) ∧
    ((∀ p, Basic.summarizeWithGemini net p = .error ()) →
      Basic.summarizeDocument cfg net text summaryType length =
        Basic.summarizeDocument cfg { net with gemini := none } text summaryType length ∧
      Basic.askLegalQuestion cfg net question documentContext =
        Basic.askLegalQuestion cfg { net with gemini := none } question documentContext ∧
      Basic.performSemanticSearch cfg net query documentText =
        Basic.performSemanticSearch cfg { net with gemini := none } query documentText) ∧
    (net.huggingface = some Basic.HFResp.nonArray →
      Basic.extractEntities cfg net etext =
        Basic.extractEntities cfg { net with huggingface := none } etext) ∧
    Basic.summarizeWithGemini
        { net with
          gemini := some { candidates := some [{ content := some { parts := some [{ text := none }] } }] } } pr
      = .ok none ∧
    Basic.translateText cfg
        { net with mymemory := some { responseData := some { translatedText := none } } }
        ttext sourceLang targetLang =
      ({ payload := none, provider := some .mymemory, degraded := false }, [.mymemory]) := by
  have hopeq : ∀ p, Basic.summarizeWithOpenAI { net with gemini := none } p =
      Basic.summarizeWithOpenAI net p := by
    intro p
    simp [Basic.summarizeWithOpenAI]
  have hgeq : ∀ p, Basic.summarizeWithGemini { net with openai := none } p =
      Basic.summarizeWithGemini net p := by
    intro p
    simp [Basic.summarizeWithGemini]
  have hothrow : ∀ p, Basic.summarizeWithOpenAI { net with openai := none } p = .error () := by
    intro p
    simp [Basic.summarizeWithOpenAI]
  have hgthrow : ∀ p, Basic.summarizeWithGemini { net with gemini := none } p = .error () := by
    intro p
    simp [Basic.summarizeWithGemini]
  refine ⟨rfl, rfl, rfl, rfl, rfl, rfl, rfl, rfl, ?_, ?_, ?_, rfl, rfl⟩
  · intro hthrow
    refine ⟨?_, ?_, ?_⟩
    · simp [Basic.summarizeDocument, hthrow, hothrow, hgeq]
    · simp [Basic.askLegalQuestion, hthrow, hothrow, hgeq]
    · simp [Basic.performSemanticSearch, hthrow, hothrow, hgeq]
  · intro hthrow
    refine ⟨?_, ?_, ?_⟩
    · simp [Basic.summarizeDocument, hthrow, hgthrow, hopeq]
    · simp [Basic.askLegalQuestion, hthrow, hgthrow, hopeq]
    · simp [Basic.performSemanticSearch, hthrow, hgthrow, hopeq]
  · intro hna
    simp [Basic.extractEntities, hna]

/-- Claim C6, witness: the amended theorem applied to the oracle whose
OpenAI payload lacks the choices array, discharging the throwing-OpenAI
hypothesis of its transport-equivalence conjunct. -/
theorem claim_C6_witness :
    Basic.summarizeDocument cfgBoth netMalformedOpenAI "doc" "comprehensive" "medium" =
      Basic.summarizeDocument cfgBoth { netMalformedOpenAI with openai := none } "doc"
        "comprehensive" "medium" :=
  ((claim_C6_amended cfgBoth netMalformedOpenAI "doc" "comprehensive" "medium" "q" ""
    "query" "body" "etext" "hello" "en" "hi" "p").2.2.2.2.2.2.2.2.1 (fun _ => rfl)).1

/-- If every OpenAI payload offered by the oracle carries its content
leaf, then a returning (non-throwing) OpenAI attempt returns a present
string, not undefined. -/
theorem openaiOk_isSome (net : Basic.Net) (h : chatLeafOk net.openai) (p : String)
    (v : Option String) (hok : Basic.summarizeWithOpenAI net p = .ok v) :
    v.isSome = true := by
  cases ho : net.openai with
  | none => simp [Basic.summarizeWithOpenAI, ho] at hok
  | some pay =>
    cases hc : pay.choices with
    | none => simp [Basic.summarizeWithOpenAI, ho, hc] at hok
    | some cs =>
      cases cs with
      | nil => simp [Basic.summarizeWithOpenAI, ho, hc] at hok
      | cons c rest =>
        cases hm : c.message with
        | none => simp [Basic.summarizeWithOpenAI, ho, hc, hm] at hok
        | some m =>
          simp [Basic.summarizeWithOpenAI, ho, hc, hm] at hok
          exact hok ▸ h pay c rest m ho hc hm

/-- If every Gemini payload offered by the oracle carries its text leaf,
then a returning Gemini attempt returns a present string, not
undefined. -/
theorem geminiOk_isSome (net : Basic.Net) (h : geminiLeafOk net.gemini) (p : String)
    (v : Option String) (hok : Basic.summarizeWithGemini net p = .ok v) :
    v.isSome = true := by
  cases ho : net.gemini with
  | none => simp [Basic.summarizeWithGemini, ho] at hok
  | some pay =>
    cases hc : pay.candidates with
    | none => simp [Basic.summarizeWithGemini, ho, hc] at hok
    | some cs =>
      cases cs with
      | nil => simp [Basic.summarizeWithGemini, ho, hc] at hok
      | cons c rest =>
        cases hct : c.content with
        | none => simp [Basic.summarizeWithGemini, ho, hc, hct] at hok
        | some ct =>
          cases hpt : ct.parts with
          | none => simp [Basic.summarizeWithGemini, ho, hc, hct, hpt] at hok
          | some ps =>
            cases ps with
            | nil => simp [Basic.summarizeWithGemini, ho, hc, hct, hpt] at hok
            | cons pt rest2 =>
              simp [Basic.summarizeWithGemini, ho, hc, hct, hpt] at hok
              exact hok ▸ h pay c rest ct pt rest2 ho hc hct hpt

/-- Claim C7, counterexample.  A MyMemory success payload whose
responseData lacks the translatedText leaf makes translateText return a
non-degraded result whose payload is undefined rather than a string, so
the per-task-type result shape is not identical across providers. -/
theorem claim_C7_counterexample :
    (Basic.translateText cfgEmpty netTranslateLeafMissing "good morning" "en" "ta").1.degraded
      = false ∧
    (Basic.translateText cfgEmpty netTranslateLeafMissing "good morning" "en" "ta").1.payload
      = none :=
  ⟨rfl, rfl⟩

/-- Claim C7, amended.  Provided every payload the oracle offers carries
its leaf text field, the four text tasks always return a string (the
degraded mock results are always strings, so this covers every branch),
and extractEntities always returns the five-field entity record
regardless of provider or oracle. -/
theorem claim_C7_amended (cfg : Basic.Config) (net : Basic.Net)
    (text summaryType length question documentContext query documentText
      etext ttext sourceLang targetLang : String)
    (h1 : chatLeafOk net.openai) (h2 : geminiLeafOk net.gemini)
    (h3 : mymemoryLeafOk net.mymemory) :
    (Basic.summarizeDocument cfg net text summaryType length).1.payload.isSome = true ∧
    (Basic.askLegalQuestion cfg net question documentContext).1.payload.isSome = true ∧
    (Basic.performSemanticSearch cfg net query documentText).1.payload.isSome = true ∧
    (Basic.translateText cfg net ttext sourceLang targetLang).1.payload.isSome = true ∧
    (∃ ps os ls ds lrs, (Basic.extractEntities cfg net etext).1.payload =
      { persons := ps, organizations := os, locations := ls, dates := ds,
        legal_refs := lrs }) := by
  refine ⟨?_, ?_, ?_, ?_, ?_⟩
  · simp only [Basic.summarizeDocument]
    split
    · cases hok : Basic.summarizeWithOpenAI net
          (Basic.buildSummaryPrompt text summaryType length) with
      | ok v => simpa using openaiOk_isSome net h1 _ v hok
      | error e =>
        by_cases hg : cfg.geminiKey = ""
        · simp [hg]
        · rw [if_pos hg]
          cases hok2 : Basic.summarizeWithGemini net
              (Basic.buildSummaryPrompt text summaryType length) with
          | ok v => simpa using geminiOk_isSome net h2 _ v hok2
          | error e2 => simp
    · by_cases hg : cfg.geminiKey = ""
      · rw [if_neg (fun h => h hg)]
        simp
      · rw [if_pos hg]
        cases hok2 : Basic.summarizeWithGemini net
            (Basic.buildSummaryPrompt text summaryType length) with
        | ok v => simpa using geminiOk_isSome net h2 _ v hok2
        | error e2 => simp
  · simp only [Basic.askLegalQuestion]
    split
    · cases hok : Basic.summarizeWithOpenAI net
          (Basic.buildLegalQuestionPrompt question documentContext) with
      | ok v => simpa using openaiOk_isSome net h1 _ v hok
      | error e =>
        by_cases hg : cfg.geminiKey = ""
        · simp [hg]
        · rw [if_pos hg]
          cases hok2 : Basic.summarizeWithGemini net
              (Basic.buildLegalQuestionPrompt question documentContext) with
          | ok v => simpa using geminiOk_isSome net h2 _ v hok2
          | error e2 => simp
    · by_cases hg : cfg.geminiKey = ""
      · rw [if_neg (fun h => h hg)]
        simp
      · rw [if_pos hg]
        cases hok2 : Basic.summarizeWithGemini net
            (Basic.buildLegalQuestionPrompt question documentContext) with
        | ok v => simpa using geminiOk_isSome net h2 _ v hok2
        | error e2 => simp
  · simp only [Basic.performSemanticSearch]
    split
    · cases hok : Basic.summarizeWithOpenAI net
          (Basic.buildSearchPrompt query documentText) with
      | ok v => simpa using openaiOk_isSome net h1 _ v hok
      | error e => simp
    · by_cases hg : cfg.geminiKey = ""
      · rw [if_neg (fun h => h hg)]
        simp
      · rw [if_pos hg]
        cases hok2 : Basic.summarizeWithGemini net
            (Basic.buildSearchPrompt query documentText) with
        | ok v => simpa using geminiOk_isSome net h2 _ v hok2
        | error e2 => simp
  · cases hm : net.mymemory with
    | none => simp [Basic.translateText, hm]
    | some p =>
      cases hd : p.responseData with
      | none => simp [Basic.translateText, hm, hd]
      | some d =>
        have hleaf := h3 p d hm hd
        simp [Basic.translateText, hm, hd, hleaf]
  · exact ⟨_, _, _, _, _, rfl⟩

/-- Claim C7, witness: the amended theorem applied to the all-failing
oracle, on which the leaf hypotheses hold vacuously and every task
degrades to its mock string. -/
theorem claim_C7_witness :
    (Basic.summarizeDocument cfgEmpty netAllFail "doc" "comprehensive" "medium").1.payload.isSome
      = true :=
  (claim_C7_amended cfgEmpty netAllFail "doc" "comprehensive" "medium" "q" "" "query" "body"
    "etext" "hello" "en" "hi" (fun _ _ _ _ hp => nomatch hp) (fun _ _ _ _ _ _ hp => nomatch hp)
    (fun _ _ hp => nomatch hp)).1
